import Mathlib

/-!
Verification of the CloCh drift-correction and noise-corrected variance
estimation pipeline (src/plotter.py, src/python_tools/plotter.py,
src/python_tools/plotter_paper.py).

Series are embedded as `List ℚ`: the scripts' float arrays are modelled
exactly over the rationals, so all algebraic laws below are exact where the
spec allows a floating-point tolerance.  Division by zero is total (`x / 0
= 0` in `ℚ`), mirroring the fact that the empty-series corner produces a
degenerate value rather than an exception in the scripts.
-/

namespace CloCh

/-- Embedding of `np.mean`: the sum of the entries divided by the length
(`np.mean([])` is degenerate in the scripts; here it is `0`). -/
def mean (xs : List ℚ) : ℚ := xs.sum / (xs.length : ℚ)

/-- Embedding of `np.var` (default `ddof=0`): the mean of the squared
deviations from the mean, i.e. population variance with denominator `N`. -/
def npVar (xs : List ℚ) : ℚ := mean (xs.map (fun x => (x - mean xs) ^ 2))

/-- Source: `quantization_step = 16` (plotter.py line 18 and the
python_tools variants). -/
def quantization_step : ℚ := 16

/-- Source: `quantization_variance = (quantization_step**2) / 12`, the
variance of uniform quantization noise, here parameterized by the step. -/
def quantizationVariance (s : ℚ) : ℚ := s ^ 2 / 12

/-- The scripts' fixed quantization-variance constant
(`(quantization_step**2) / 12` with step 16, i.e. `64/3 ≈ 21.3333`). -/
def quantization_variance : ℚ := quantizationVariance quantization_step

/-- Source: `n_ticks_detrended = n_ticks - (fitted - mean_n_ticks)`
(plotter.py line 37; identically with `moving_avg` in the python_tools
scripts): elementwise `count[i] - (baseline[i] - mean(count))`. -/
def residualBuilder (counts baseline : List ℚ) : List ℚ :=
  List.zipWith (fun c b => c - (b - mean counts)) counts baseline

/-- Source: `var_real = max(0, var_measured - quantization_variance)`
(plotter.py line 42 / lines 75-80): quantization-corrected variance,
clamped at zero. -/
def realVariance (xs : List ℚ) (q : ℚ) : ℚ := max 0 (npVar xs - q)

/-- Source: `std_real = np.sqrt(var_real)` (plotter.py line 43 / lines
78-79): the corrected standard deviation.  The square root of a rational
is irrational in general, hence the value lives in `ℝ`. -/
noncomputable def realStd (xs : List ℚ) (q : ℚ) : ℝ :=
  Real.sqrt ((realVariance xs q : ℚ) : ℝ)

/-- Value of the mean/variance report entry: either the rational
`mean / real_variance` or the `np.inf` sentinel the scripts report when
the corrected variance is not positive. -/
inductive RVal where
  | inf : RVal
  | fin (r : ℚ) : RVal
deriving DecidableEq

/-- Source: `R_original = mean_n_ticks / var_original if var_original > 0
else np.inf` (plotter.py lines 83-84), parameterized by the series and the
quantization variance. -/
def R_stat (xs : List ℚ) (q : ℚ) : RVal :=
  if 0 < realVariance xs q then RVal.fin (mean xs / realVariance xs q)
  else RVal.inf

/-- Mean of the slice of `xs` with indices in `[lo, hi)` (out-of-range
parts of the interval simply contribute nothing, as `drop`/`take` clip). -/
def windowMean (xs : List ℚ) (lo hi : ℕ) : ℚ :=
  mean ((xs.drop lo).take (hi - lo))

/-- Source: `moving_avg = df_temp['n_ticks'].rolling(window=WINDOW_SIZE,
center=True, min_periods=1).mean().values` (python_tools/plotter.py lines
33-36).  Pandas' fixed-window indexer with `center=True` uses
`offset = (w - 1) // 2` and gives output `i` the index window
`[clip(i + 1 + offset - w), clip(i + 1 + offset))`; with `min_periods=1`
the mean is taken over the in-bounds indices only (the window shrinks at
both edges; for `w ≥ 1` it is never empty, so no NaN appears).  Natural
subtraction performs the clip of the lower bound at `0`. -/
def moving_avg (w : ℕ) (xs : List ℚ) : List ℚ :=
  (List.range xs.length).map (fun i =>
    windowMean xs (i + 1 + (w - 1) / 2 - w) (min (i + 1 + (w - 1) / 2) xs.length))

/-- Modelled from the spec's words (for comparison with `moving_avg`): the
baseline at index `i` is the mean of exactly the in-bounds samples lying
within `floor(w/2)` positions on each side of `i`. -/
def specSymmetricWindowAvg (w : ℕ) (xs : List ℚ) : List ℚ :=
  (List.range xs.length).map (fun i =>
    windowMean xs (i - w / 2) (min (i + 1 + w / 2) xs.length))

/-- Source: `def rational(x, a, b, c): return a / (x + b) + c`
(plotter.py lines 22-23). -/
def rational (x a b c : ℚ) : ℚ := a / (x + b) + c

/-- The per-series statistics of the final report block (plotter.py lines
62-84): means, measured (population) variances, quantization-corrected
variances and the mean/variance entries for the raw and detrended series.
The printed standard deviations are `realStd` of the same data and are
kept out of the bundle only because they live in `ℝ`. -/
structure StatsReport where
  mean_n_ticks : ℚ
  mean_detrended : ℚ
  var_original_measured : ℚ
  var_detrended_measured : ℚ
  var_original : ℚ
  var_detrended : ℚ
  R_original : RVal
  R_detrended : RVal
deriving DecidableEq

/-- Assembly of the report from the raw series and the detrended series,
exactly the statements of plotter.py lines 62-84 with the scripts' fixed
`quantization_variance`. -/
def mkStatsReport (n_ticks n_ticks_detrended : List ℚ) : StatsReport where
  mean_n_ticks := mean n_ticks
  mean_detrended := mean n_ticks_detrended
  var_original_measured := npVar n_ticks
  var_detrended_measured := npVar n_ticks_detrended
  var_original := max 0 (npVar n_ticks - quantization_variance)
  var_detrended := max 0 (npVar n_ticks_detrended - quantization_variance)
  R_original := R_stat n_ticks quantization_variance
  R_detrended := R_stat n_ticks_detrended quantization_variance

/-- Error outcomes of a script run.  `nameError` is Python's NameError
(raised at plotter.py line 61, `results['fitted']`, when the `try` block
failed and `results` was never assigned); the other two constructors exist
only to state the spec's claimed error kinds, which the scripts never
produce. -/
inductive PyError where
  | nameError
  | fitDivergence
  | invalidConfiguration
deriving DecidableEq

/-- Embedding of the rational-fit script's control flow (plotter.py lines
29-84).  `scipy.optimize.curve_fit` is external; its outcome is the
parameter `fitOutcome`: `some (a, b, c)` when it returned parameters,
`none` when it raised.  On `none` the `except` clause swallows the
exception (a `print` only) and execution continues to line 61, where the
read of the never-assigned `results` raises `NameError`.  On success the
baseline is `rational` evaluated at every iteration and the report is
assembled from the raw and detrended series. -/
def runRationalScript (fitOutcome : Option (ℚ × ℚ × ℚ))
    (iterations n_ticks : List ℚ) : Except PyError StatsReport :=
  match fitOutcome with
  | Option.none => Except.error PyError.nameError
  | Option.some (a, b, c) =>
      let fitted := iterations.map (fun x => rational x a b c)
      Except.ok (mkStatsReport n_ticks (residualBuilder n_ticks fitted))

/-- Embedding of the moving-average script's control flow
(python_tools/plotter.py lines 30-87): compute the centered rolling mean,
detrend, assemble the report.  The script validates nothing (window and
step are hard-coded constants, the series is used as read) and its `try`
block has no failing operation, so the run always yields a report. -/
def runMovingAvgScript (w : ℕ) (n_ticks : List ℚ) : Except PyError StatsReport :=
  Except.ok (mkStatsReport n_ticks (residualBuilder n_ticks (moving_avg w n_ticks)))

/-- Scenario-A input series of the spec: five constant readings of 10. -/
def scenarioA_ticks : List ℚ := [10, 10, 10, 10, 10]

/-- Scenario-B input series of the spec. -/
def scenarioB_ticks : List ℚ := [100, 102, 98, 101, 99]

/-! ## Helper lemmas -/

/-- Sum of the mean-preserving detrend combination over two lists of equal
length: the constant `m` is added once per element. -/
theorem sum_detrend (m : ℚ) (cs bs : List ℚ) (h : cs.length = bs.length) :
    (List.zipWith (fun c b => c - (b - m)) cs bs).sum
      = cs.sum - bs.sum + (cs.length : ℚ) * m := by
  induction cs generalizing bs with
  | nil =>
    cases bs with
    | nil => simp
    | cons b bs => simp at h
  | cons c cs ih =>
    cases bs with
    | nil => simp at h
    | cons b bs =>
      have h2 : cs.length = bs.length := by simpa using h
      rw [List.zipWith_cons_cons, List.sum_cons, ih bs h2]
      simp only [List.sum_cons, List.length_cons]
      push_cast
      ring

/-- A list of non-negative rationals with zero sum is all zeros. -/
theorem all_zero_of_sum_zero (xs : List ℚ) (h0 : ∀ x ∈ xs, 0 ≤ x)
    (hs : xs.sum = 0) : ∀ x ∈ xs, x = 0 := by
  induction xs with
  | nil => intro x hx; simp at hx
  | cons a l ih =>
    have ha : 0 ≤ a := h0 a (List.mem_cons_self a l)
    have hl : 0 ≤ l.sum :=
      List.sum_nonneg (fun x hx => h0 x (List.mem_cons_of_mem a hx))
    have hsum : a + l.sum = 0 := by simpa using hs
    intro x hx
    rcases List.mem_cons.mp hx with hx1 | hx2
    · rw [hx1]; linarith
    · exact ih (fun y hy => h0 y (List.mem_cons_of_mem a hy)) (by linarith) x hx2

/-- The mean of a list of non-negative rationals is non-negative. -/
theorem mean_nonneg (xs : List ℚ) (h0 : ∀ x ∈ xs, 0 ≤ x) : 0 ≤ mean xs :=
  div_nonneg (List.sum_nonneg h0) (Nat.cast_nonneg xs.length)

/-- A list with zero sum has zero mean. -/
theorem mean_eq_zero_of_sum_eq_zero (l : List ℚ) (h : l.sum = 0) : mean l = 0 := by
  unfold mean
  rw [h, zero_div]

/-- A non-negative list with zero mean has zero population variance
(every entry is zero, so every squared deviation is zero). -/
theorem npVar_eq_zero_of_mean_eq_zero (xs : List ℚ) (h0 : ∀ x ∈ xs, 0 ≤ x)
    (hm : mean xs = 0) : npVar xs = 0 := by
  rcases eq_or_ne xs [] with rfl | hne
  · simp [npVar, mean]
  · have hn : (0 : ℚ) < (xs.length : ℚ) := by
      exact_mod_cast List.length_pos.mpr hne
    have hsum : xs.sum = 0 := by
      have hm2 := hm
      unfold mean at hm2
      rcases div_eq_zero_iff.mp hm2 with h | h
      · exact h
      · exact absurd h hn.ne'
    have hall := all_zero_of_sum_zero xs h0 hsum
    have hmap : (xs.map (fun x => (x - mean xs) ^ 2)).sum = 0 := by
      apply List.sum_eq_zero
      intro y hy
      rcases List.mem_map.mp hy with ⟨x, hx, rfl⟩
      rw [hall x hx, hm]
      ring
    exact mean_eq_zero_of_sum_eq_zero _ hmap

/-- A non-negative list with positive population variance has positive
mean. -/
theorem mean_pos_of_npVar_pos (xs : List ℚ) (h0 : ∀ x ∈ xs, 0 ≤ x)
    (hv : 0 < npVar xs) : 0 < mean xs := by
  rcases (mean_nonneg xs h0).lt_or_eq with h | h
  · exact h
  · exact absurd (npVar_eq_zero_of_mean_eq_zero xs h0 h.symm) hv.ne'

/-- Concrete value: the population variance of the constant scenario-A
series is zero. -/
theorem npVar_scenarioA : npVar scenarioA_ticks = 0 := by
  simp only [npVar, scenarioA_ticks]
  norm_num [mean]

/-- Concrete value: the scripts' quantization-variance constant is `64/3`
(rendered `21.3333` at four decimal places by the report printer). -/
theorem quantization_variance_val : quantization_variance = 64 / 3 := by
  norm_num [quantization_variance, quantizationVariance, quantization_step]

/-! ## Claims -/

/-- C8: the moving-average baseline computed with window size `w = 1`
equals the original series exactly (identity case of the smoother). -/
theorem moving_avg_window_one_identity (xs : List ℚ) : moving_avg 1 xs = xs := by
  apply List.ext_getElem
  · simp [moving_avg]
  · intro i h1 h2
    simp only [moving_avg, List.getElem_map, List.getElem_range]
    have hmin : min (i + 1 + (1 - 1) / 2) xs.length = i + 1 := by omega
    have hlo : i + 1 + (1 - 1) / 2 - 1 = i := by omega
    rw [hlo, hmin]
    unfold windowMean
    have hone : i + 1 - i = 1 := by omega
    have htake : (xs.drop i).take 1 = [xs[i]] := by
      rw [← List.getElem_cons_drop xs i h2]
      simp [-List.getElem_cons_drop]
    rw [hone, htake]
    simp [mean]

/-- C2: the Variance Corrector returns `real_variance = max(0,
measured_variance - q)`, which is non-negative even when `q` exceeds the
measured variance (the clamp then yields exactly zero), and
`real_std = sqrt(real_variance)`. -/
theorem varCorrector_clamp (xs : List ℚ) (q : ℚ) :
    realVariance xs q = max 0 (npVar xs - q)
      ∧ 0 ≤ realVariance xs q
      ∧ (npVar xs < q → realVariance xs q = 0)
      ∧ realStd xs q = Real.sqrt ((realVariance xs q : ℚ) : ℝ) := by
  refine ⟨rfl, le_max_left 0 _, fun h => ?_, rfl⟩
  unfold realVariance
  exact max_eq_left (by linarith)

/-- Witness for C2 at the constant scenario-A series with the scripts'
quantization variance `64/3`: the measured variance is below the floor and
the clamp yields exactly zero. -/
theorem varCorrector_clamp_witness :
    0 ≤ realVariance scenarioA_ticks (64 / 3)
      ∧ realVariance scenarioA_ticks (64 / 3) = 0 :=
  ⟨(varCorrector_clamp scenarioA_ticks (64 / 3)).2.1,
    (varCorrector_clamp scenarioA_ticks (64 / 3)).2.2.1
      (by rw [npVar_scenarioA]; norm_num)⟩

/-- C1 counterexample: with the code's own moving-average baseline
(window 3) on the series `[0, 0, 3]` the detrended mean is `7/6`, not the
original mean `1` — the mean-preservation law fails as a universal law
over baselines of matching length. -/
theorem residual_mean_preservation_cex :
    mean (residualBuilder [0, 0, 3] (moving_avg 3 [0, 0, 3]))
      ≠ mean ([0, 0, 3] : List ℚ) := by
  simp only [moving_avg, residualBuilder]
  norm_num [List.range, List.range.loop, windowMean, mean]

/-- C1 (amended): `residual[i] = count[i] - baseline[i] + mean(count)`
holds pointwise, and the mean of the detrended series equals
`2 * mean(count) - mean(baseline)`; it therefore equals the original mean
exactly when the baseline's mean equals the series' mean — not for every
baseline of the same length. -/
theorem residualBuilder_mean_shift (counts baseline : List ℚ)
    (hlen : counts.length = baseline.length) (hne : counts ≠ []) :
    mean (residualBuilder counts baseline) = 2 * mean counts - mean baseline
      ∧ (mean baseline = mean counts →
          mean (residualBuilder counts baseline) = mean counts)
      ∧ (residualBuilder counts baseline).length = counts.length
      ∧ ∀ i (h1 : i < (residualBuilder counts baseline).length)
          (h2 : i < counts.length) (h3 : i < baseline.length),
          (residualBuilder counts baseline).get ⟨i, h1⟩
            = counts.get ⟨i, h2⟩ - baseline.get ⟨i, h3⟩ + mean counts := by
  have hlr : (residualBuilder counts baseline).length = counts.length := by
    simp [residualBuilder, List.length_zipWith, hlen]
  have hn : ((counts.length : ℚ)) ≠ 0 := by
    have hpos : 0 < counts.length := List.length_pos.mpr hne
    exact_mod_cast hpos.ne'
  have hsum : (residualBuilder counts baseline).sum
      = counts.sum - baseline.sum + (counts.length : ℚ) * mean counts :=
    sum_detrend (mean counts) counts baseline hlen
  have hmean : mean (residualBuilder counts baseline)
      = 2 * mean counts - mean baseline := by
    simp only [mean] at hsum ⊢
    rw [hlr, hsum, ← hlen]
    field_simp
    ring
  refine ⟨hmean, fun hb => by rw [hmean, hb]; ring, hlr, fun i h1 h2 h3 => ?_⟩
  simp only [residualBuilder, List.get_eq_getElem, List.getElem_zipWith]
  ring

/-- Witness for C1 (amended) at `counts = [1, 2]`, `baseline = [4, 0]`:
the detrended mean is the shifted value `2 * (3/2) - 2 = 1`. -/
theorem residualBuilder_mean_shift_witness :
    mean (residualBuilder [1, 2] [4, 0]) = 2 * mean [1, 2] - mean [4, 0] :=
  (residualBuilder_mean_shift [1, 2] [4, 0] rfl (List.cons_ne_nil _ _)).1

/-- C3: for a valid input series (non-negative counts) and a non-negative
quantization variance, the report's mean/variance entry is the infinity
sentinel exactly when the corrected variance is zero, and a finite
positive number in every other case; infinity is produced as a report
value, not raised as an error. -/
theorem R_stat_inf_iff (xs : List ℚ) (q : ℚ) (hq : 0 ≤ q)
    (hx : ∀ x ∈ xs, 0 ≤ x) :
    (R_stat xs q = RVal.inf ↔ realVariance xs q = 0)
      ∧ ∀ r : ℚ, R_stat xs q = RVal.fin r → 0 < r := by
  have hv0 : 0 ≤ realVariance xs q := le_max_left 0 _
  constructor
  · constructor
    · intro h
      by_contra hne
      have hv : 0 < realVariance xs q := lt_of_le_of_ne hv0 (Ne.symm hne)
      unfold R_stat at h
      rw [if_pos hv] at h
      exact RVal.noConfusion h
    · intro h0
      unfold R_stat
      rw [if_neg (by rw [h0]; exact lt_irrefl 0)]
  · intro r hr
    unfold R_stat at hr
    by_cases hv : 0 < realVariance xs q
    · rw [if_pos hv] at hr
      have hs : 0 < npVar xs - q := by
        by_contra hle
        push_neg at hle
        have h0 : realVariance xs q = 0 := by
          unfold realVariance
          exact max_eq_left hle
        rw [h0] at hv
        exact lt_irrefl 0 hv
      have hmean : 0 < mean xs := mean_pos_of_npVar_pos xs hx (by linarith)
      injection hr with hrr
      rw [← hrr]
      exact div_pos hmean hv
    · rw [if_neg hv] at hr
      exact RVal.noConfusion hr

/-- Witness for C3 at the valid series `[0, 16]` with quantization
variance `64/3`: the entry is the finite positive value `3/16`. -/
theorem R_stat_inf_iff_witness :
    R_stat [0, 16] (64 / 3) = RVal.fin (3 / 16) ∧ 0 < (3 : ℚ) / 16 :=
  ⟨by simp only [R_stat, realVariance, npVar]; norm_num [mean],
    (R_stat_inf_iff [0, 16] (64 / 3) (by norm_num) (by norm_num)).2 (3 / 16)
      (by simp only [R_stat, realVariance, npVar]; norm_num [mean])⟩

/-- Concrete value: the window-3 rolling mean of scenario B at index 0 is
the shrunken-window mean `mean([100, 102]) = 101`. -/
theorem moving_avg_scenarioB_at0 : (moving_avg 3 scenarioB_ticks).getD 0 0 = 101 := by
  simp only [moving_avg, scenarioB_ticks]
  norm_num [List.range, List.range.loop, windowMean, mean]

/-- Concrete value: the window-3 rolling mean of scenario B at index 2 is
the full-window mean `mean([102, 98, 101]) = 301/3`. -/
theorem moving_avg_scenarioB_at2 : (moving_avg 3 scenarioB_ticks).getD 2 0 = 301 / 3 := by
  simp only [moving_avg, scenarioB_ticks]
  norm_num [List.range, List.range.loop, windowMean, mean]

/-- Concrete value of the code's centered rolling mean at index 1 of
`[0, 0, 3]` with the even window `w = 2`: the window is `{0, 1}` (the
extra sample falls on the left). -/
theorem moving_avg_two_val : (moving_avg 2 [0, 0, 3]).getD 1 0 = 0 := by
  simp only [moving_avg]
  norm_num [List.range, List.range.loop, windowMean, mean]

/-- Concrete value of the spec-worded symmetric window at index 1 of
`[0, 0, 3]` with `w = 2`: `floor(w/2) = 1` on each side gives the window
`{0, 1, 2}`. -/
theorem symmetric_avg_two_val :
    (specSymmetricWindowAvg 2 [0, 0, 3]).getD 1 0 = 1 := by
  simp only [specSymmetricWindowAvg]
  norm_num [List.range, List.range.loop, windowMean, mean]

/-- C4 counterexample: for the even window `w = 2` on `[0, 0, 3]` the
code's baseline at index 1 is `0` (window `{0, 1}`: the extra sample lies
on the left) while the claimed symmetric `floor(w/2)`-on-each-side window
gives `1` (window `{0, 1, 2}`) — so the claim fails for even `w`. -/
theorem moving_avg_symmetric_cex :
    (moving_avg 2 [0, 0, 3]).getD 1 0
      ≠ (specSymmetricWindowAvg 2 [0, 0, 3]).getD 1 0 := by
  rw [moving_avg_two_val, symmetric_avg_two_val]
  norm_num

/-- C4 (amended): for every `w ≥ 1` the moving-average baseline at index
`i` is the mean of exactly the in-bounds samples within `floor(w/2)`
positions to the left of `i` and `floor((w-1)/2)` positions to the right
(shrinking at the edges, never zero-padding or wrapping); for odd `w` this
is the claimed symmetric `floor(w/2)` on each side, and in scenario B
(window 3 on `[100,102,98,101,99]`) the baseline at index 0 is
`mean([100,102]) = 101` and at index 2 is `mean([102,98,101]) = 301/3`. -/
theorem moving_avg_edge_policy (w : ℕ) (xs : List ℚ) (hw : 1 ≤ w) :
    (moving_avg w xs).length = xs.length
      ∧ (∀ i, i < xs.length →
          (moving_avg w xs).getD i 0
            = windowMean xs (i - w / 2) (min (i + 1 + (w - 1) / 2) xs.length))
      ∧ (w % 2 = 1 → moving_avg w xs = specSymmetricWindowAvg w xs)
      ∧ (moving_avg 3 scenarioB_ticks).getD 0 0 = 101
      ∧ (moving_avg 3 scenarioB_ticks).getD 2 0 = 301 / 3 := by
  refine ⟨by simp [moving_avg], fun i hi => ?_, fun hodd => ?_, ?_, ?_⟩
  · have hlen : i < (moving_avg w xs).length := by
      simpa [moving_avg] using hi
    rw [List.getD_eq_getElem _ _ hlen]
    simp only [moving_avg, List.getElem_map, List.getElem_range]
    have harith : i + 1 + (w - 1) / 2 - w = i - w / 2 := by omega
    rw [harith]
  · unfold moving_avg specSymmetricWindowAvg
    apply List.map_congr_left
    intro i hi
    show windowMean xs (i + 1 + (w - 1) / 2 - w) (min (i + 1 + (w - 1) / 2) xs.length)
      = windowMean xs (i - w / 2) (min (i + 1 + w / 2) xs.length)
    have h1 : i + 1 + (w - 1) / 2 - w = i - w / 2 := by omega
    have h2 : (w - 1) / 2 = w / 2 := by omega
    rw [h1, h2]
  · exact moving_avg_scenarioB_at0
  · exact moving_avg_scenarioB_at2

/-- Witness for C4 (amended) at scenario B: window 3 on
`[100, 102, 98, 101, 99]` gives baseline `101` at index 0 (edge shrink)
and `301/3` at index 2 (full window). -/
theorem moving_avg_edge_policy_witness :
    (moving_avg 3 scenarioB_ticks).getD 0 0 = 101
      ∧ (moving_avg 3 scenarioB_ticks).getD 2 0 = 301 / 3 :=
  ⟨(moving_avg_edge_policy 3 scenarioB_ticks (by norm_num)).2.2.2.1,
    (moving_avg_edge_policy 3 scenarioB_ticks (by norm_num)).2.2.2.2⟩

/-- C5 counterexample: when the optimizer fails (`fitOutcome = none`) the
rational-fit script does not fail with a FitDivergence error — the
`except` clause swallows the exception and the run ends in a NameError
instead. -/
theorem fit_failure_error_kind_cex :
    runRationalScript Option.none [0, 1] [10, 10]
      ≠ Except.error PyError.fitDivergence := by
  simp [runRationalScript]

/-- C5 (amended): if the optimizer fails, the script catches and logs the
exception and then fails with a NameError when it reads the never-assigned
`results`; the original failure is thus masked into a log line plus a
NameError rather than surfaced as a FitDivergence error, but no report
(in particular no degenerate substitute baseline output) is ever
produced. -/
theorem runRationalScript_fit_failure (iterations n_ticks : List ℚ) :
    runRationalScript Option.none iterations n_ticks
        = Except.error PyError.nameError
      ∧ ∀ rep : StatsReport,
          runRationalScript Option.none iterations n_ticks ≠ Except.ok rep :=
  ⟨rfl, fun _ h => Except.noConfusion h⟩

/-- Witness for C5 (amended): a failed fit on the scenario-A data ends in
NameError. -/
theorem runRationalScript_fit_failure_witness :
    runRationalScript Option.none [0, 1, 2, 3, 4] scenarioA_ticks
      = Except.error PyError.nameError :=
  (runRationalScript_fit_failure [0, 1, 2, 3, 4] scenarioA_ticks).1

/-- C6 counterexample: invoked on a zero-length series, the moving-average
pipeline does not fail fast with an InvalidConfiguration error — it runs
to completion and produces a (degenerate) report. -/
theorem empty_series_no_invalid_config_cex :
    runMovingAvgScript 3 [] ≠ Except.error PyError.invalidConfiguration := by
  simp [runMovingAvgScript]

/-- C6 (amended): the scripts perform no input validation: the
quantization step and window size are hard-coded positive constants, the
quantization-variance formula accepts a non-positive step without
rejecting it, and a zero-length series is not rejected — the
moving-average pipeline returns a report (degenerate on empty input) for
every window size and series, never an error of any kind. -/
theorem scripts_no_validation (w : ℕ) (n_ticks : List ℚ) :
    (∀ e : PyError, runMovingAvgScript w n_ticks ≠ Except.error e)
      ∧ (∃ rep : StatsReport, runMovingAvgScript w n_ticks = Except.ok rep)
      ∧ quantizationVariance (-16) = quantizationVariance 16 :=
  ⟨fun e h => Except.noConfusion h, ⟨_, rfl⟩, by norm_num [quantizationVariance]⟩

/-- Witness for C6 (amended) at window 3 on the empty series: the run
produces a report, not an InvalidConfiguration failure. -/
theorem scripts_no_validation_witness :
    ∃ rep : StatsReport, runMovingAvgScript 3 [] = Except.ok rep :=
  (scripts_no_validation 3 []).2.1

/-- C7: both measured variances of the report are the population
variance — the sum of squared deviations from the mean divided by the
series length `N`, not `N - 1`; the concrete series `[0, 2]` separates
the two conventions (`1` with denominator `N = 2` versus `2` with
`N - 1 = 1`). -/
theorem pipeline_population_variance (n_ticks d : List ℚ) :
    (mkStatsReport n_ticks d).var_original_measured
        = (n_ticks.map (fun x => (x - mean n_ticks) ^ 2)).sum / (n_ticks.length : ℚ)
      ∧ (mkStatsReport n_ticks d).var_detrended_measured
        = (d.map (fun x => (x - mean d) ^ 2)).sum / (d.length : ℚ)
      ∧ npVar [(0 : ℚ), 2] = 1
      ∧ npVar [(0 : ℚ), 2] ≠ ((0 - 1) ^ 2 + (2 - 1) ^ 2) / (2 - 1) := by
  have hval : npVar [(0 : ℚ), 2] = 1 := by
    simp only [npVar]
    norm_num [mean]
  refine ⟨?_, ?_, hval, by rw [hval]; norm_num⟩
  · simp [mkStatsReport, npVar, mean, List.length_map]
  · simp [mkStatsReport, npVar, mean, List.length_map]

/-- Witness for C7 at `n_ticks = [0, 2]`: the reported measured variance
is the denominator-`N` value. -/
theorem pipeline_population_variance_witness :
    (mkStatsReport [0, 2] []).var_original_measured
      = (([0, 2] : List ℚ).map (fun x => (x - mean [0, 2]) ^ 2)).sum
          / ((([0, 2] : List ℚ).length : ℕ) : ℚ) :=
  (pipeline_population_variance [0, 2] []).1

/-- C9: scenario A — for the constant series `[10,10,10,10,10]` with step
16 the pipeline values are quantization variance `64/3` (printed as
`21.3333` at four decimals), measured variance `0`, corrected (real)
variance `0`, real standard deviation `0`, and mean/variance entry
`+infinity`; the report fields agree, whatever the detrended companion
series is. -/
theorem scenarioA_report :
    quantization_variance = 64 / 3
      ∧ npVar scenarioA_ticks = 0
      ∧ realVariance scenarioA_ticks quantization_variance = 0
      ∧ realStd scenarioA_ticks quantization_variance = 0
      ∧ R_stat scenarioA_ticks quantization_variance = RVal.inf
      ∧ ∀ d : List ℚ,
          (mkStatsReport scenarioA_ticks d).var_original_measured = 0
            ∧ (mkStatsReport scenarioA_ticks d).var_original = 0
            ∧ (mkStatsReport scenarioA_ticks d).R_original = RVal.inf := by
  have hv : realVariance scenarioA_ticks quantization_variance = 0 := by
    unfold realVariance
    rw [npVar_scenarioA, quantization_variance_val]
    norm_num
  have hR : R_stat scenarioA_ticks quantization_variance = RVal.inf := by
    unfold R_stat
    rw [if_neg (by rw [hv]; exact lt_irrefl 0)]
  refine ⟨quantization_variance_val, npVar_scenarioA, hv, ?_, hR,
    fun d => ⟨npVar_scenarioA, hv, hR⟩⟩
  unfold realStd
  rw [hv]
  simp

/-- C10: the statistics computation never takes the square root of a
negative number — the clamp precedes the square root, so squaring
`real_std` recovers exactly `real_variance` — and never divides by zero in
the report entry: the division happens only under the guard
`real_variance > 0`, and the clamp makes that guard equivalent to
`real_variance ≠ 0`. -/
theorem clamp_and_guard_safety (xs : List ℚ) (q : ℚ) :
    0 ≤ realVariance xs q
      ∧ realStd xs q ^ 2 = ((realVariance xs q : ℚ) : ℝ)
      ∧ (0 < realVariance xs q ↔ realVariance xs q ≠ 0)
      ∧ ∀ r : ℚ, R_stat xs q = RVal.fin r → realVariance xs q ≠ 0 := by
  have hv0 : 0 ≤ realVariance xs q := le_max_left 0 _
  refine ⟨hv0, ?_, ?_, ?_⟩
  · unfold realStd
    exact Real.sq_sqrt (by exact_mod_cast hv0)
  · constructor
    · intro h
      exact h.ne'
    · intro h
      exact lt_of_le_of_ne hv0 (Ne.symm h)
  · intro r hr
    by_cases hv : 0 < realVariance xs q
    · exact hv.ne'
    · unfold R_stat at hr
      rw [if_neg hv] at hr
      exact RVal.noConfusion hr

/-- Witness for C10 at the series `[0, 16]` with quantization variance
`64/3`: the report entry is finite and the corrected variance is indeed
nonzero. -/
theorem clamp_and_guard_safety_witness :
    0 ≤ realVariance [0, 16] (64 / 3) ∧ realVariance [0, 16] (64 / 3) ≠ 0 :=
  ⟨(clamp_and_guard_safety [0, 16] (64 / 3)).1,
    (clamp_and_guard_safety [0, 16] (64 / 3)).2.2.2 (3 / 16)
      (by simp only [R_stat, realVariance, npVar]; norm_num [mean])⟩

end CloCh
